import Mathlib

/-!
# The `ctr tasks start` action

A shallow embedding of `startCommand.Action` from
`cmd/ctr/commands/tasks/start.go`, followed by theorems about its runs.

The action is straight-line code with early returns and three `defer`
statements.  Every callee lives outside the file, so a run is determined by
what the callees answer; those answers are collected in `Env`.  The action is
embedded as a function from an `Env` to a `Run`: the ordered list of calls it
made (deferred calls included, at the point where they execute) and how the
run ended.

A callee is taken to return.  The one place where the action itself can wait
for ever, the receive on the completion channel, is part of the model; a
panic inside a callee (`console.Current()` without a console) or a nil
`spec.Process` is not.
-/

namespace Start

/-! ## Data -/

/-- Handle of a loaded container (`containerd.Container`). -/
abbrev Container := Nat

/-- Handle of a task (`containerd.Task`). -/
abbrev Task := Nat

/-- The `error` value handed back by a callee outside `start.go`. -/
structure CollabError where
  msg : String
  deriving DecidableEq, Repr

/-- The error values the action can return, told apart by where they are made. -/
inductive Error where
  /-- Made by `errors.New(msg)` inside the action (line 52). -/
  | errorsNew (msg : String)
  /-- Returned by a callee and passed on unchanged (`return err`). -/
  | collaborator (err : CollabError)
  /-- Made by `cli.NewExitError(msg, code)` (line 125). -/
  | exitError (msg : String) (exitCode : Int)
  deriving DecidableEq, Repr

/-- The part of `specs.Process` the action reads. -/
structure Process where
  Terminal : Bool
  deriving DecidableEq, Repr

/-- The part of `specs.Spec` the action reads (`spec.Process.Terminal`). -/
structure Spec where
  Process : Process
  deriving DecidableEq, Repr

/-- The value carried by the completion channel (`containerd.ExitStatus`);
`status.Result()` hands back `code` and `err` (the exit time is dropped by the
action).  `code` is a `uint32`. -/
structure ExitStatus where
  code : Nat
  err : Option CollabError
  deriving DecidableEq, Repr

/-- Go's conversion `int(x)` of an unsigned value, for an `int` of `bits`
bits: reduce modulo `2 ^ bits` and read the result as a two's complement
number. -/
def toInt (bits : Nat) (x : Nat) : Int :=
  let m := x % 2 ^ bits
  if m < 2 ^ (bits - 1) then (m : Int) else (m : Int) - 2 ^ bits

/-- One call made by the action, with the arguments that matter. -/
inductive Event where
  /-- `commands.NewClient(context)`. -/
  | newClient
  /-- The deferred `cancel()`. -/
  | cancel
  /-- `client.LoadContainer(ctx, id)`. -/
  | loadContainer (id : String)
  /-- `container.Spec(ctx)`. -/
  | spec (c : Container)
  /-- The attach attempt `container.Task(ctx, cio.NewAttach(cio.WithStdio))`. -/
  | containerTask (c : Container)
  /-- `NewTask(ctx, client, container, "", tty, nullIo, ioOpts, opts...)`. -/
  | newTask (c : Container) (checkpoint : String) (tty nullIo : Bool) (fifoDir : String)
  /-- `task.Pid()`. -/
  | pid (t : Task)
  /-- `commands.WritePidFile(path, pid)`. -/
  | writePidFile (path : String) (pid : Int)
  /-- `task.Wait(ctx)`. -/
  | wait (t : Task)
  /-- `console.Current()`. -/
  | consoleCurrent
  /-- `con.SetRaw()`. -/
  | setRaw
  /-- The deferred `con.Reset()`. -/
  | reset
  /-- `task.Start(ctx)`. -/
  | start (t : Task)
  /-- `HandleConsoleResize(ctx, task, con)`. -/
  | handleConsoleResize (t : Task)
  /-- `logrus.WithError(err).Error(msg)`. -/
  | logError (err : CollabError) (msg : String)
  /-- `commands.ForwardAllSignals(ctx, task)`. -/
  | forwardAllSignals (t : Task)
  /-- The deferred `commands.StopCatch(sigc)`, `sigc` being the channel the one
  `ForwardAllSignals` call returned. -/
  | stopCatch
  /-- The receive `<-statusC`; `delivered` is the value read, `none` when the
  channel never delivers and the receive blocks for ever. -/
  | recv (delivered : Option ExitStatus)
  deriving DecidableEq, Repr

/-- What the callees answer in one run, and what the command line holds.
Each call site of the action is executed at most once in a run, so an answer
is a function of the call's arguments. -/
structure Env where
  /-- Width of Go's `int` on the build target (`strconv.IntSize`): 32 or 64.
  The file has no build constraint, so either can be the case. -/
  intBits : Nat
  /-- `context.Args().Get(0)`: the first positional argument, `""` when absent. -/
  arg0 : String
  /-- `context.Bool("null-io")`. -/
  nullIo : Bool
  /-- `context.String("fifo-dir")`. -/
  fifoDir : String
  /-- `context.IsSet("pid-file")`. -/
  pidFileIsSet : Bool
  /-- `context.String("pid-file")`. -/
  pidFile : String
  /-- The `err` of `commands.NewClient(context)`. -/
  NewClient : Option CollabError
  /-- `client.LoadContainer(ctx, id)`. -/
  LoadContainer : String → Except CollabError Container
  /-- `container.Spec(ctx)`. -/
  Spec : Container → Except CollabError Spec
  /-- `container.Task(ctx, cio.NewAttach(cio.WithStdio))`. -/
  ContainerTask : Container → Except CollabError Task
  /-- `NewTask(ctx, client, container, checkpoint, tty, nullIo, ioOpts, opts...)`. -/
  NewTask : Container → String → Bool → Bool → String → Except CollabError Task
  /-- `task.Pid()`, a `uint32`. -/
  Pid : Task → Nat
  /-- `commands.WritePidFile(path, pid)`. -/
  WritePidFile : String → Int → Option CollabError
  /-- `task.Wait(ctx)`: an error, or the completion channel, given by what a
  receive on it yields (`none`: nothing is ever delivered). -/
  Wait : Task → Except CollabError (Option ExitStatus)
  /-- `con.SetRaw()` on the console `console.Current()` returned. -/
  SetRaw : Option CollabError
  /-- `task.Start(ctx)`. -/
  Start : Task → Option CollabError
  /-- `HandleConsoleResize(ctx, task, con)`. -/
  HandleConsoleResize : Task → Option CollabError

/-- How a run ends. -/
inductive Outcome where
  /-- The action returned `err` (`none` is Go's `nil`). -/
  | returned (err : Option Error)
  /-- The action is blocked for ever on `<-statusC`. -/
  | blocked
  deriving DecidableEq, Repr

/-- A run of the action: the calls in the order they happened, and the end. -/
structure Run where
  trace : List Event
  outcome : Outcome
  deriving DecidableEq, Repr

/-- The state of a run in progress. -/
structure St where
  /-- Calls made so far, oldest first. -/
  trace : List Event
  /-- Calls registered with `defer`, the most recent first. -/
  deferred : List Event

/-- Make a call. -/
def St.call (s : St) (e : Event) : St :=
  { s with trace := s.trace ++ [e] }

/-- Register a call with `defer`. -/
def St.defer (s : St) (e : Event) : St :=
  { s with deferred := e :: s.deferred }

/-- The statement `return err`: the deferred calls run, last registered first. -/
def St.ret (s : St) (err : Option Error) : Run :=
  { trace := s.trace ++ s.deferred, outcome := Outcome.returned err }

/-- A receive that never completes: nothing more happens. -/
def St.block (s : St) : Run :=
  { trace := s.trace, outcome := Outcome.blocked }

/-! ## The action -/

/-- Lines 117-127: `status.Result()` and the mapping of its answer to the
value the action returns. -/
def statusError (intBits : Nat) (status : ExitStatus) : Option Error :=
  match status.err with
  | some err => some (Error.collaborator err)
  | none =>
    if status.code ≠ 0 then
      some (Error.exitError "" (toInt intBits status.code))
    else
      none

/-- Lines 116-127: receive the exit status and return what it maps to. -/
def awaitStatus (intBits : Nat) (s : St) (statusC : Option ExitStatus) : Run :=
  let s := s.call (Event.recv statusC)
  match statusC with
  | none => s.block
  | some status => s.ret (statusError intBits status)

/-- Lines 104-127: start the task, set up resize handling or signal
forwarding, then await the exit status. -/
def startTask (env : Env) (s : St) (tty : Bool) (task : Task)
    (statusC : Option ExitStatus) : Run :=
  let s := s.call (Event.start task)
  match env.Start task with
  | some err => s.ret (some (Error.collaborator err))
  | none =>
    if tty then
      let s := s.call (Event.handleConsoleResize task)
      match env.HandleConsoleResize task with
      | some err => awaitStatus env.intBits (s.call (Event.logError err "console resize")) statusC
      | none => awaitStatus env.intBits s statusC
    else
      let s := s.call (Event.forwardAllSignals task)
      let s := s.defer Event.stopCatch
      awaitStatus env.intBits s statusC

/-- Lines 91-127: register for the exit status, bring the console into raw
mode when the container has a terminal, then start the task. -/
def waitTask (env : Env) (s : St) (tty : Bool) (task : Task) : Run :=
  let s := s.call (Event.wait task)
  match env.Wait task with
  | Except.error err => s.ret (some (Error.collaborator err))
  | Except.ok statusC =>
    if tty then
      let s := s.call Event.consoleCurrent
      let s := s.defer Event.reset
      let s := s.call Event.setRaw
      match env.SetRaw with
      | some err => s.ret (some (Error.collaborator err))
      | none => startTask env s tty task statusC
    else
      startTask env s tty task statusC

/-- Lines 85-127: write the pid file when asked to, then go on. -/
def withTask (env : Env) (s : St) (tty : Bool) (task : Task) : Run :=
  if env.pidFileIsSet then
    let s := s.call (Event.pid task)
    let s := s.call (Event.writePidFile env.pidFile (toInt env.intBits (env.Pid task)))
    match env.WritePidFile env.pidFile (toInt env.intBits (env.Pid task)) with
    | some err => s.ret (some (Error.collaborator err))
    | none => waitTask env s tty task
  else
    waitTask env s tty task

/-- The `Action` of `startCommand` (lines 46-128). -/
def Action (env : Env) : Run :=
  let s : St := { trace := [], deferred := [] }
  let id := env.arg0
  if id = "" then
    s.ret (some (Error.errorsNew "container id must be provided"))
  else
    let s := s.call Event.newClient
    match env.NewClient with
    | some err => s.ret (some (Error.collaborator err))
    | none =>
      let s := s.defer Event.cancel
      let s := s.call (Event.loadContainer id)
      match env.LoadContainer id with
      | Except.error err => s.ret (some (Error.collaborator err))
      | Except.ok container =>
        let s := s.call (Event.spec container)
        match env.Spec container with
        | Except.error err => s.ret (some (Error.collaborator err))
        | Except.ok spec =>
          let tty := spec.Process.Terminal
          let s := s.call (Event.containerTask container)
          match env.ContainerTask container with
          | Except.ok task => withTask env s tty task
          | Except.error _ =>
            let s := s.call (Event.newTask container "" tty env.nullIo env.fifoDir)
            match env.NewTask container "" tty env.nullIo env.fifoDir with
            | Except.error err => s.ret (some (Error.collaborator err))
            | Except.ok task => withTask env s tty task

/-! ## The shapes a run can take

Everything below is derived from `Action`: `Path` lists the runs by the point
where the action returns or blocks, and `Action_path` (further down) proves
that every run is one of them. -/

/-- The calls up to the point where the task is in hand: client, container,
spec, the attach attempt and, when the attach failed, the creation. -/
def acquireCalls (env : Env) (c : Container) (tty : Bool) : List Event :=
  [Event.newClient, Event.loadContainer env.arg0, Event.spec c, Event.containerTask c] ++
    match env.ContainerTask c with
    | Except.ok _ => []
    | Except.error _ => [Event.newTask c "" tty env.nullIo env.fifoDir]

/-- The calls of the pid-file step (lines 86-90). -/
def pidFileCalls (env : Env) (t : Task) : List Event :=
  if env.pidFileIsSet then
    [Event.pid t, Event.writePidFile env.pidFile (toInt env.intBits (env.Pid t))]
  else
    []

/-- All calls made before `task.Wait`. -/
def setupCalls (env : Env) (c : Container) (tty : Bool) (t : Task) : List Event :=
  acquireCalls env c tty ++ pidFileCalls env t

/-- The log call that follows a failed `HandleConsoleResize` (lines 108-110). -/
def logCalls (env : Env) (t : Task) : List Event :=
  match env.HandleConsoleResize t with
  | some err => [Event.logError err "console resize"]
  | none => []

/-- Calls that belong to the part of the action before `task.Wait`. -/
def Event.isSetup : Event → Bool
  | Event.newClient => true
  | Event.loadContainer _ => true
  | Event.spec _ => true
  | Event.containerTask _ => true
  | Event.newTask _ _ _ _ _ => true
  | Event.pid _ => true
  | Event.writePidFile _ _ => true
  | _ => false

/-- The attach attempt. -/
def Event.isAttach : Event → Bool
  | Event.containerTask _ => true
  | _ => false

/-- A task creation. -/
def Event.isNewTask : Event → Bool
  | Event.newTask _ _ _ _ _ => true
  | _ => false

/-- An operation on the host console. -/
def Event.isConsoleOp : Event → Bool
  | Event.consoleCurrent => true
  | Event.setRaw => true
  | Event.reset => true
  | Event.handleConsoleResize _ => true
  | _ => false

/-- An operation of the signal relay. -/
def Event.isSignalOp : Event → Bool
  | Event.forwardAllSignals _ => true
  | Event.stopCatch => true
  | _ => false

/-- The task a call is made on, for the calls that are made on a task. -/
def Event.task? : Event → Option Task
  | Event.pid t => some t
  | Event.wait t => some t
  | Event.start t => some t
  | Event.handleConsoleResize t => some t
  | Event.forwardAllSignals t => some t
  | _ => none

/-- A call the action makes only once `task.Start` has returned without
error (lines 107-116): resize handling and its log call, signal forwarding and
its deferred stop, the receive on the completion channel. -/
def Event.isAfterStart : Event → Bool
  | Event.handleConsoleResize _ => true
  | Event.logError _ _ => true
  | Event.forwardAllSignals _ => true
  | Event.stopCatch => true
  | Event.recv _ => true
  | _ => false

/-- A call the action makes only once `task.Wait` has returned without error
(lines 96-116). -/
def Event.isAfterWait : Event → Bool
  | Event.consoleCurrent => true
  | Event.setRaw => true
  | Event.reset => true
  | Event.start _ => true
  | e => e.isAfterStart

/-- The log call of lines 108-110. -/
def Event.isLogError : Event → Bool
  | Event.logError _ _ => true
  | _ => false

/-- A run with the log calls left out of its trace. -/
def Run.unlogged (r : Run) : Run :=
  { r with trace := r.trace.filter (fun e => !e.isLogError) }

/-- The value of `tty` (line 70) in a run that gets as far as reading the
spec: the `Terminal` flag of the loaded container's process specification. -/
def Env.tty? (env : Env) : Option Bool :=
  match env.LoadContainer env.arg0 with
  | Except.error _ => none
  | Except.ok c =>
    match env.Spec c with
    | Except.error _ => none
    | Except.ok sp => some sp.Process.Terminal

/-- The steps before acquisition succeeded, and task `t` was acquired for
container `c` with spec `sp`: by the attach, or by creation after a failed
attach. -/
structure Acquired (env : Env) (c : Container) (sp : Spec) (t : Task) : Prop where
  id_ne : env.arg0 ≠ ""
  client : env.NewClient = none
  load : env.LoadContainer env.arg0 = Except.ok c
  spec : env.Spec c = Except.ok sp
  task : env.ContainerTask c = Except.ok t ∨
    ((∃ e, env.ContainerTask c = Except.error e) ∧
      env.NewTask c "" sp.Process.Terminal env.nullIo env.fifoDir = Except.ok t)

/-- The action got as far as `task.Wait`: the task is acquired and the
pid-file step, when there is one, succeeded. -/
structure Ready (env : Env) (c : Container) (sp : Spec) (t : Task) : Prop where
  acquired : Acquired env c sp t
  pidFile : env.pidFileIsSet = true →
    env.WritePidFile env.pidFile (toInt env.intBits (env.Pid t)) = none

/-- The runs of the action, one constructor for each point where it returns
or blocks. -/
inductive Path (env : Env) : Run → Prop where
  | noId (h : env.arg0 = "") :
      Path env ⟨[], Outcome.returned (some (Error.errorsNew "container id must be provided"))⟩
  | newClientFailed (e : CollabError) (h0 : env.arg0 ≠ "") (h : env.NewClient = some e) :
      Path env ⟨[Event.newClient], Outcome.returned (some (Error.collaborator e))⟩
  | loadFailed (e : CollabError) (h0 : env.arg0 ≠ "") (h1 : env.NewClient = none)
      (h : env.LoadContainer env.arg0 = Except.error e) :
      Path env ⟨[Event.newClient, Event.loadContainer env.arg0, Event.cancel],
        Outcome.returned (some (Error.collaborator e))⟩
  | specFailed (c : Container) (e : CollabError) (h0 : env.arg0 ≠ "")
      (h1 : env.NewClient = none) (h2 : env.LoadContainer env.arg0 = Except.ok c)
      (h : env.Spec c = Except.error e) :
      Path env ⟨[Event.newClient, Event.loadContainer env.arg0, Event.spec c, Event.cancel],
        Outcome.returned (some (Error.collaborator e))⟩
  | newTaskFailed (c : Container) (sp : Spec) (e e' : CollabError) (h0 : env.arg0 ≠ "")
      (h1 : env.NewClient = none) (h2 : env.LoadContainer env.arg0 = Except.ok c)
      (h3 : env.Spec c = Except.ok sp) (h4 : env.ContainerTask c = Except.error e)
      (h : env.NewTask c "" sp.Process.Terminal env.nullIo env.fifoDir = Except.error e') :
      Path env ⟨[Event.newClient, Event.loadContainer env.arg0, Event.spec c,
          Event.containerTask c, Event.newTask c "" sp.Process.Terminal env.nullIo env.fifoDir,
          Event.cancel],
        Outcome.returned (some (Error.collaborator e'))⟩
  | pidFileFailed (c : Container) (sp : Spec) (t : Task) (e : CollabError)
      (ha : Acquired env c sp t) (hset : env.pidFileIsSet = true)
      (h : env.WritePidFile env.pidFile (toInt env.intBits (env.Pid t)) = some e) :
      Path env ⟨acquireCalls env c sp.Process.Terminal ++
          [Event.pid t, Event.writePidFile env.pidFile (toInt env.intBits (env.Pid t)), Event.cancel],
        Outcome.returned (some (Error.collaborator e))⟩
  | waitFailed (c : Container) (sp : Spec) (t : Task) (e : CollabError)
      (hr : Ready env c sp t) (h : env.Wait t = Except.error e) :
      Path env ⟨setupCalls env c sp.Process.Terminal t ++ [Event.wait t, Event.cancel],
        Outcome.returned (some (Error.collaborator e))⟩
  | setRawFailed (c : Container) (sp : Spec) (t : Task) (statusC : Option ExitStatus)
      (e : CollabError) (hr : Ready env c sp t) (hw : env.Wait t = Except.ok statusC)
      (htty : sp.Process.Terminal = true) (h : env.SetRaw = some e) :
      Path env ⟨setupCalls env c sp.Process.Terminal t ++
          [Event.wait t, Event.consoleCurrent, Event.setRaw, Event.reset, Event.cancel],
        Outcome.returned (some (Error.collaborator e))⟩
  | startFailedTty (c : Container) (sp : Spec) (t : Task) (statusC : Option ExitStatus)
      (e : CollabError) (hr : Ready env c sp t) (hw : env.Wait t = Except.ok statusC)
      (htty : sp.Process.Terminal = true) (hraw : env.SetRaw = none)
      (h : env.Start t = some e) :
      Path env ⟨setupCalls env c sp.Process.Terminal t ++
          [Event.wait t, Event.consoleCurrent, Event.setRaw, Event.start t, Event.reset,
            Event.cancel],
        Outcome.returned (some (Error.collaborator e))⟩
  | startFailedPiped (c : Container) (sp : Spec) (t : Task) (statusC : Option ExitStatus)
      (e : CollabError) (hr : Ready env c sp t) (hw : env.Wait t = Except.ok statusC)
      (htty : sp.Process.Terminal = false) (h : env.Start t = some e) :
      Path env ⟨setupCalls env c sp.Process.Terminal t ++
          [Event.wait t, Event.start t, Event.cancel],
        Outcome.returned (some (Error.collaborator e))⟩
  | blockedTty (c : Container) (sp : Spec) (t : Task)
      (hr : Ready env c sp t) (hw : env.Wait t = Except.ok none)
      (htty : sp.Process.Terminal = true) (hraw : env.SetRaw = none)
      (hs : env.Start t = none) :
      Path env ⟨setupCalls env c sp.Process.Terminal t ++
          ([Event.wait t, Event.consoleCurrent, Event.setRaw, Event.start t,
            Event.handleConsoleResize t] ++ (logCalls env t ++ [Event.recv none])),
        Outcome.blocked⟩
  | blockedPiped (c : Container) (sp : Spec) (t : Task)
      (hr : Ready env c sp t) (hw : env.Wait t = Except.ok none)
      (htty : sp.Process.Terminal = false) (hs : env.Start t = none) :
      Path env ⟨setupCalls env c sp.Process.Terminal t ++
          [Event.wait t, Event.start t, Event.forwardAllSignals t, Event.recv none],
        Outcome.blocked⟩
  | doneTty (c : Container) (sp : Spec) (t : Task) (status : ExitStatus)
      (hr : Ready env c sp t) (hw : env.Wait t = Except.ok (some status))
      (htty : sp.Process.Terminal = true) (hraw : env.SetRaw = none)
      (hs : env.Start t = none) :
      Path env ⟨setupCalls env c sp.Process.Terminal t ++
          ([Event.wait t, Event.consoleCurrent, Event.setRaw, Event.start t,
            Event.handleConsoleResize t] ++
            (logCalls env t ++ [Event.recv (some status), Event.reset, Event.cancel])),
        Outcome.returned (statusError env.intBits status)⟩
  | donePiped (c : Container) (sp : Spec) (t : Task) (status : ExitStatus)
      (hr : Ready env c sp t) (hw : env.Wait t = Except.ok (some status))
      (htty : sp.Process.Terminal = false) (hs : env.Start t = none) :
      Path env ⟨setupCalls env c sp.Process.Terminal t ++
          [Event.wait t, Event.start t, Event.forwardAllSignals t, Event.recv (some status),
            Event.stopCatch, Event.cancel],
        Outcome.returned (statusError env.intBits status)⟩

/-! ## Sample environments -/

/-- A run in which every callee succeeds: container `"c1"` has no terminal,
no task yet, and its task exits with code 137. -/
def envPiped : Env where
  intBits := 64
  arg0 := "c1"
  nullIo := false
  fifoDir := ""
  pidFileIsSet := false
  pidFile := ""
  NewClient := none
  LoadContainer := fun _ => Except.ok 1
  Spec := fun _ => Except.ok { Process := { Terminal := false } }
  ContainerTask := fun _ => Except.error { msg := "no running task found" }
  NewTask := fun _ _ _ _ _ => Except.ok 7
  Pid := fun _ => 4242
  WritePidFile := fun _ _ => none
  Wait := fun _ => Except.ok (some { code := 137, err := none })
  SetRaw := none
  Start := fun _ => none
  HandleConsoleResize := fun _ => none

/-- As `envPiped`, with a task that exits with code 0. -/
def envExitZero : Env :=
  { envPiped with Wait := fun _ => Except.ok (some { code := 0, err := none }) }

/-- As `envPiped` on a target whose `int` has 32 bits, with a task that exits
with code `2 ^ 31`. -/
def envInt32 : Env :=
  { envPiped with
    intBits := 32
    Wait := fun _ => Except.ok (some { code := 2147483648, err := none }) }

/-- As `envPiped`, for a container with a terminal. -/
def envTty : Env :=
  { envPiped with Spec := fun _ => Except.ok { Process := { Terminal := true } } }

/-- No positional argument on the command line. -/
def envNoId : Env :=
  { envPiped with arg0 := "" }

/-- The container already has a task (handle 3): the attach succeeds. -/
def envAttach : Env :=
  { envPiped with ContainerTask := fun _ => Except.ok 3 }

/-- The container has a terminal and `con.SetRaw()` fails. -/
def envSetRawFails : Env :=
  { envTty with SetRaw := some { msg := "inappropriate ioctl for device" } }

/-- No terminal, and `task.Wait` fails. -/
def envWaitFails : Env :=
  { envPiped with Wait := fun _ => Except.error { msg := "ttrpc: closed" } }

/-- No terminal, and `task.Start` fails. -/
def envStartFails : Env :=
  { envPiped with Start := fun _ => some { msg := "OCI runtime start failed" } }

/-- A terminal, raw mode entered, and `task.Start` fails. -/
def envTtyStartFails : Env :=
  { envTty with Start := fun _ => some { msg := "OCI runtime start failed" } }

/-- A terminal, and `HandleConsoleResize` fails. -/
def envResizeFails : Env :=
  { envTty with HandleConsoleResize := fun _ => some { msg := "resize failed" } }

/-- The attach fails and so does the creation. -/
def envCreateFails : Env :=
  { envPiped with NewTask := fun _ _ _ _ _ => Except.error { msg := "rootfs not found" } }

/-! ## Every run follows one of the paths -/

theorem startTask_path (env : Env) (c : Container) (sp : Spec) (t : Task)
    (statusC : Option ExitStatus) (hr : Ready env c sp t) (hw : env.Wait t = Except.ok statusC)
    (hraw : sp.Process.Terminal = true → env.SetRaw = none) :
    Path env (startTask env
      ⟨setupCalls env c sp.Process.Terminal t ++ Event.wait t ::
          (if sp.Process.Terminal then [Event.consoleCurrent, Event.setRaw] else []),
        (if sp.Process.Terminal then [Event.reset] else []) ++ [Event.cancel]⟩
      sp.Process.Terminal t statusC) := by
  unfold startTask
  cases hs : env.Start t with
  | some e =>
    cases htty : sp.Process.Terminal with
    | true =>
      simpa [St.call, St.ret, htty] using
        Path.startFailedTty c sp t statusC e hr hw htty (hraw htty) hs
    | false =>
      simpa [St.call, St.ret, htty] using
        Path.startFailedPiped c sp t statusC e hr hw htty hs
  | none =>
    cases htty : sp.Process.Terminal with
    | true =>
      cases statusC with
      | none =>
        have := Path.blockedTty c sp t hr hw htty (hraw htty) hs
        cases hz : env.HandleConsoleResize t <;>
          simpa [St.call, St.ret, St.block, St.defer, htty, awaitStatus, logCalls, hz] using this
      | some status =>
        have := Path.doneTty c sp t status hr hw htty (hraw htty) hs
        cases hz : env.HandleConsoleResize t <;>
          simpa [St.call, St.ret, St.block, St.defer, htty, awaitStatus, logCalls, hz] using this
    | false =>
      cases statusC with
      | none =>
        simpa [St.call, St.ret, St.block, St.defer, htty, awaitStatus] using
          Path.blockedPiped c sp t hr hw htty hs
      | some status =>
        simpa [St.call, St.ret, St.block, St.defer, htty, awaitStatus] using
          Path.donePiped c sp t status hr hw htty hs

theorem waitTask_path (env : Env) (c : Container) (sp : Spec) (t : Task)
    (hr : Ready env c sp t) :
    Path env (waitTask env ⟨setupCalls env c sp.Process.Terminal t, [Event.cancel]⟩
      sp.Process.Terminal t) := by
  unfold waitTask
  cases hw : env.Wait t with
  | error e =>
    simpa [St.call, St.ret] using Path.waitFailed c sp t e hr hw
  | ok statusC =>
    cases htty : sp.Process.Terminal with
    | true =>
      cases hraw : env.SetRaw with
      | some e =>
        simpa [St.call, St.ret, St.defer, htty] using
          Path.setRawFailed c sp t statusC e hr hw htty hraw
      | none =>
        have := startTask_path env c sp t statusC hr hw (fun _ => hraw)
        simpa [St.call, St.ret, St.defer, htty] using this
    | false =>
      have := startTask_path env c sp t statusC hr hw (fun h => by simp [htty] at h)
      simpa [St.call, St.ret, St.defer, htty] using this

theorem withTask_path (env : Env) (c : Container) (sp : Spec) (t : Task)
    (ha : Acquired env c sp t) :
    Path env (withTask env ⟨acquireCalls env c sp.Process.Terminal, [Event.cancel]⟩
      sp.Process.Terminal t) := by
  unfold withTask
  cases hset : env.pidFileIsSet with
  | true =>
    cases hp : env.WritePidFile env.pidFile (toInt env.intBits (env.Pid t)) with
    | some e =>
      simpa [St.call, St.ret] using Path.pidFileFailed c sp t e ha hset hp
    | none =>
      have := waitTask_path env c sp t ⟨ha, fun _ => hp⟩
      simpa [St.call, setupCalls, pidFileCalls, hset] using this
  | false =>
    have := waitTask_path env c sp t ⟨ha, fun h => by simp [hset] at h⟩
    simpa [St.call, setupCalls, pidFileCalls, hset] using this

/-- Every run of the action follows one of the paths of `Path`. -/
theorem Action_path (env : Env) : Path env (Action env) := by
  unfold Action
  by_cases h0 : env.arg0 = ""
  · simpa [h0, St.ret] using Path.noId h0
  · cases h1 : env.NewClient with
    | some e => simpa [h0, St.call, St.ret] using Path.newClientFailed e h0 h1
    | none =>
      cases h2 : env.LoadContainer env.arg0 with
      | error e => simpa [h0, h1, h2, St.call, St.ret, St.defer] using Path.loadFailed e h0 h1 h2
      | ok c =>
        cases h3 : env.Spec c with
        | error e =>
          simpa [h0, h1, h2, h3, St.call, St.ret, St.defer] using Path.specFailed c e h0 h1 h2 h3
        | ok sp =>
          cases h4 : env.ContainerTask c with
          | ok t =>
            have := withTask_path env c sp t ⟨h0, h1, h2, h3, Or.inl h4⟩
            simpa [h0, h1, h2, h3, h4, St.call, St.defer, acquireCalls] using this
          | error e =>
            cases h5 : env.NewTask c "" sp.Process.Terminal env.nullIo env.fifoDir with
            | error e' =>
              simpa [h0, h1, h2, h3, h4, h5, St.call, St.ret, St.defer] using
                Path.newTaskFailed c sp e e' h0 h1 h2 h3 h4 h5
            | ok t =>
              have := withTask_path env c sp t ⟨h0, h1, h2, h3, Or.inr ⟨⟨e, h4⟩, h5⟩⟩
              simpa [h0, h1, h2, h3, h4, h5, St.call, St.defer, acquireCalls] using this


/-! ## Facts about the calls made before `task.Wait` -/

theorem isSetup_of_mem_acquireCalls {env : Env} {c : Container} {tty : Bool} :
    ∀ {e : Event}, e ∈ acquireCalls env c tty → e.isSetup = true := by
  unfold acquireCalls
  cases hc : env.ContainerTask c <;> simp [Event.isSetup]

theorem isSetup_of_mem_setupCalls {env : Env} {c : Container} {tty : Bool} {t : Task} :
    ∀ {e : Event}, e ∈ setupCalls env c tty t → e.isSetup = true := by
  intro e h
  unfold setupCalls pidFileCalls at h
  rcases List.mem_append.1 h with h | h
  · exact isSetup_of_mem_acquireCalls h
  · revert h
    cases hp : env.pidFileIsSet <;> simp
    rintro (h | h) <;> subst h <;> rfl

theorem not_mem_acquireCalls {env : Env} {c : Container} {tty : Bool} {e : Event}
    (h : e.isSetup = false) : e ∉ acquireCalls env c tty := fun hm => by
  simp [isSetup_of_mem_acquireCalls hm] at h

theorem not_mem_setupCalls {env : Env} {c : Container} {tty : Bool} {t : Task} {e : Event}
    (h : e.isSetup = false) : e ∉ setupCalls env c tty t := fun hm => by
  simp [isSetup_of_mem_setupCalls hm] at h

theorem mem_logCalls {env : Env} {t : Task} {e : Event} :
    e ∈ logCalls env t ↔
      ∃ err, env.HandleConsoleResize t = some err ∧ e = Event.logError err "console resize" := by
  unfold logCalls
  cases env.HandleConsoleResize t <;> simp

theorem toInt_of_lt {bits x : Nat} (h : x < 2 ^ (bits - 1)) : toInt bits x = (x : Int) := by
  have hle : 2 ^ (bits - 1) ≤ 2 ^ bits := Nat.pow_le_pow_right (by decide) (Nat.sub_le _ _)
  have h1 : x % 2 ^ bits = x := Nat.mod_eq_of_lt (Nat.lt_of_lt_of_le h hle)
  simp only [toInt, h1, h, if_true]

/-! ## The claims -/

/-- C1 (amended): exit-code mapping.  When the run reaches the await step and
the completion channel delivers a status whose `Result()` is `(code, nil)`,
the action returns `nil` for `code = 0` and otherwise an exit error with the
empty message whose exit code is `int(code)`.  That is exactly `code`
whenever `code` fits Go's `int`, `code < 2 ^ (intBits - 1)`: for every
`uint32` code where `int` is wider than 32 bits, for the codes below `2 ^ 31`
where it has 32 bits. -/
theorem exit_code_mapping (env : Env) (status : ExitStatus)
    (hrecv : Event.recv (some status) ∈ (Action env).trace)
    (herr : status.err = none) (hcode : status.code < 2 ^ 32) :
    (Action env).outcome =
      Outcome.returned
        (if status.code = 0 then none
          else some (Error.exitError "" (toInt env.intBits status.code))) ∧
    (status.code < 2 ^ (env.intBits - 1) →
      (Action env).outcome =
        Outcome.returned
          (if status.code = 0 then none
            else some (Error.exitError "" (status.code : Int)))) ∧
    (32 < env.intBits →
      (Action env).outcome =
        Outcome.returned
          (if status.code = 0 then none
            else some (Error.exitError "" (status.code : Int)))) := by
  have hout : (Action env).outcome =
      Outcome.returned
        (if status.code = 0 then none
          else some (Error.exitError "" (toInt env.intBits status.code))) := by
    have hp := Action_path env
    generalize Action env = r at hp hrecv
    cases hp <;>
      simp [not_mem_setupCalls, not_mem_acquireCalls, mem_logCalls, Event.isSetup] at hrecv
    all_goals
      subst hrecv
      by_cases h0 : status.code = 0 <;> simp [statusError, herr, h0]
  refine ⟨hout, fun hfit => ?_, fun hwide => ?_⟩
  · rw [hout, toInt_of_lt hfit]
  · have hfit : status.code < 2 ^ (env.intBits - 1) :=
      Nat.lt_of_lt_of_le hcode (Nat.pow_le_pow_right (by decide) (by omega))
    rw [hout, toInt_of_lt hfit]

theorem takeWhile_setupCalls_append {env : Env} {c : Container} {tty : Bool} {t : Task}
    (p : Event → Bool) (hp : ∀ e, e.isSetup = true → p e = true) (l : List Event) :
    (setupCalls env c tty t ++ l).takeWhile p = setupCalls env c tty t ++ l.takeWhile p :=
  List.takeWhile_append_of_pos (fun a ha => hp a (isSetup_of_mem_setupCalls ha))

theorem dropWhile_setupCalls_append {env : Env} {c : Container} {tty : Bool} {t : Task}
    (p : Event → Bool) (hp : ∀ e, e.isSetup = true → p e = true) (l : List Event) :
    (setupCalls env c tty t ++ l).dropWhile p = l.dropWhile p :=
  List.dropWhile_append_of_pos (fun a ha => hp a (isSetup_of_mem_setupCalls ha))

/-- C2: registration before start.  Whenever `task.Start` is invoked on a task,
`task.Wait` on that task returned without error and was invoked before the
(first) `Start` call of the run. -/
theorem wait_before_start (env : Env) (t : Task)
    (h : Event.start t ∈ (Action env).trace) :
    (∃ statusC, env.Wait t = Except.ok statusC) ∧
      Event.wait t ∈ (Action env).trace.takeWhile (fun e => e ≠ Event.start t) := by
  have hp := Action_path env
  generalize Action env = r at hp h
  cases hp <;>
    simp [not_mem_setupCalls, not_mem_acquireCalls, mem_logCalls, Event.isSetup] at h
  all_goals
    subst h
    refine ⟨⟨_, by assumption⟩, ?_⟩
    rw [takeWhile_setupCalls_append _ (by intro e; cases e <;> simp [Event.isSetup])]
    simp


theorem statusError_ne_errorsNew (bits : Nat) (status : ExitStatus) (msg : String) :
    statusError bits status ≠ some (Error.errorsNew msg) := by
  unfold statusError
  cases status.err <;> simp

/-- C3: empty identifier.  With an empty first argument the action returns
the "container id must be provided" error at once, having made no call at
all; with a non-empty one it never returns an error made by `errors.New`. -/
theorem empty_id_precondition (env : Env) :
    (env.arg0 = "" →
      Action env =
        ⟨[], Outcome.returned (some (Error.errorsNew "container id must be provided"))⟩) ∧
    (env.arg0 ≠ "" →
      ∀ msg, (Action env).outcome ≠ Outcome.returned (some (Error.errorsNew msg))) := by
  constructor
  · intro h
    simp [Action, h, St.ret]
  · intro h msg
    have hp := Action_path env
    generalize Action env = r at hp
    cases hp <;> simp [statusError_ne_errorsNew]
    exact absurd ‹env.arg0 = ""› h

theorem countP_isAttach_acquireCalls (env : Env) (c : Container) (tty : Bool) :
    (acquireCalls env c tty).countP Event.isAttach = 1 := by
  unfold acquireCalls
  cases env.ContainerTask c <;> simp [List.countP_cons, Event.isAttach]

theorem countP_isAttach_pidFileCalls (env : Env) (t : Task) :
    (pidFileCalls env t).countP Event.isAttach = 0 := by
  unfold pidFileCalls
  cases env.pidFileIsSet <;> simp [List.countP_cons, Event.isAttach]

theorem countP_isAttach_logCalls (env : Env) (t : Task) :
    (logCalls env t).countP Event.isAttach = 0 := by
  unfold logCalls
  cases env.HandleConsoleResize t <;> simp [List.countP_cons, Event.isAttach]

theorem countP_isNewTask_acquireCalls (env : Env) (c : Container) (tty : Bool) :
    (acquireCalls env c tty).countP Event.isNewTask =
      match env.ContainerTask c with
      | Except.ok _ => 0
      | Except.error _ => 1 := by
  unfold acquireCalls
  cases env.ContainerTask c <;> simp [List.countP_cons, Event.isNewTask]

theorem countP_isNewTask_pidFileCalls (env : Env) (t : Task) :
    (pidFileCalls env t).countP Event.isNewTask = 0 := by
  unfold pidFileCalls
  cases env.pidFileIsSet <;> simp [List.countP_cons, Event.isNewTask]

theorem countP_isNewTask_logCalls (env : Env) (t : Task) :
    (logCalls env t).countP Event.isNewTask = 0 := by
  unfold logCalls
  cases env.HandleConsoleResize t <;> simp [List.countP_cons, Event.isNewTask]

theorem takeWhile_acquireCalls_append (env : Env) (c : Container) (tty : Bool)
    (l : List Event) :
    (acquireCalls env c tty ++ l).takeWhile (fun e => !e.isAttach) =
      [Event.newClient, Event.loadContainer env.arg0, Event.spec c] := by
  simp [acquireCalls, List.takeWhile_cons, Event.isAttach]

theorem task?_of_mem_logCalls {env : Env} {t : Task} {e : Event}
    (h : e ∈ logCalls env t) : e.task? = none := by
  obtain ⟨err, -, rfl⟩ := mem_logCalls.1 h
  rfl


theorem Acquired.unique {env : Env} {c c' : Container} {sp sp' : Spec} {t t' : Task}
    (h : Acquired env c sp t) (h' : Acquired env c' sp' t') : c' = c ∧ sp' = sp ∧ t' = t := by
  have hc : c' = c := by
    have := h'.load; rw [h.load] at this; injection this with this; exact this.symm
  subst hc
  have hs : sp' = sp := by
    have := h'.spec; rw [h.spec] at this; injection this with this; exact this.symm
  subst hs
  refine ⟨rfl, rfl, ?_⟩
  rcases h.task with h4 | ⟨⟨e, h4⟩, h5⟩ <;> rcases h'.task with h4' | ⟨⟨e', h4'⟩, h5'⟩
  · rw [h4] at h4'; injection h4' with h; exact h.symm
  · rw [h4] at h4'; cases h4'
  · rw [h4] at h4'; cases h4'
  · rw [h5] at h5'; injection h5' with h; exact h.symm

theorem Acquired.container_spec {env : Env} {c c' : Container} {sp sp' : Spec} {t : Task}
    (ha : Acquired env c' sp' t) (h2 : env.LoadContainer env.arg0 = Except.ok c)
    (h3 : env.Spec c = Except.ok sp) : c' = c ∧ sp' = sp := by
  have hc : c' = c := by
    have := ha.load; rw [h2] at this; injection this with this; exact this.symm
  subst hc
  have := ha.spec; rw [h3] at this; injection this with this
  exact ⟨rfl, this.symm⟩

theorem task?_of_mem_logCalls_eq {env : Env} {t t0 : Task} :
    ∀ e ∈ logCalls env t, ∀ t', e.task? = some t' → t' = t0 := by
  intro e he t' h
  rw [task?_of_mem_logCalls he] at h
  cases h

theorem task?_of_mem_acquireCalls {env : Env} {c : Container} {tty : Bool} :
    ∀ e ∈ acquireCalls env c tty, e.task? = none := by
  unfold acquireCalls
  cases env.ContainerTask c <;> simp [Event.task?]

theorem task?_of_mem_pidFileCalls {env : Env} {t : Task} :
    ∀ e ∈ pidFileCalls env t, ∀ t', e.task? = some t' → t' = t := by
  unfold pidFileCalls
  cases env.pidFileIsSet <;> simp [Event.task?, eq_comm]

/-- Once the spec is read, the trace is the acquisition followed by calls
that neither attach nor create, all made on the acquired task. -/
theorem Path.after_acquire {env : Env} {r : Run} (hp : Path env r) {c : Container} {sp : Spec}
    (h0 : env.arg0 ≠ "") (h1 : env.NewClient = none)
    (h2 : env.LoadContainer env.arg0 = Except.ok c) (h3 : env.Spec c = Except.ok sp) :
    ∃ rest, r.trace = acquireCalls env c sp.Process.Terminal ++ rest ∧
      rest.countP Event.isAttach = 0 ∧ rest.countP Event.isNewTask = 0 ∧
      ∀ t, Acquired env c sp t →
        (∀ e ∈ rest, ∀ t', e.task? = some t' → t' = t) ∧
        ((env.pidFileIsSet = true →
            env.WritePidFile env.pidFile (toInt env.intBits (env.Pid t)) = none) → Event.wait t ∈ rest) := by
  cases hp with
  | noId h => exact absurd h h0
  | newClientFailed e _ h => rw [h1] at h; cases h
  | loadFailed e _ _ h => rw [h2] at h; cases h
  | specFailed c' e _ _ h2' h =>
    rw [h2] at h2'; injection h2' with h2'; subst h2'
    rw [h3] at h; cases h
  | newTaskFailed c' sp' e e' _ _ h2' h3' h4 h =>
    rw [h2] at h2'; injection h2' with h2'; subst h2'
    rw [h3] at h3'; injection h3' with h3'; subst h3'
    refine ⟨[Event.cancel], by simp [acquireCalls, h4], by simp [Event.isAttach],
      by simp [Event.isNewTask], ?_⟩
    intro t ha
    rcases ha.task with h4' | ⟨_, h5⟩
    · rw [h4] at h4'; cases h4'
    · rw [h] at h5; cases h5
  | pidFileFailed c' sp' t e ha hset h =>
    obtain ⟨hc, hs⟩ := ha.container_spec h2 h3
    subst hc; subst hs
    refine ⟨_, rfl, by simp [Event.isAttach], by simp [Event.isNewTask], ?_⟩
    intro t' ha'
    obtain ⟨-, -, rfl⟩ := ha'.unique ha
    refine ⟨by simp [Event.task?, eq_comm], fun hw => ?_⟩
    rw [hw hset] at h; cases h
  | waitFailed c' sp' t _ hr _ | setRawFailed c' sp' t _ _ hr _ _ _
  | startFailedTty c' sp' t _ _ hr _ _ _ _ | startFailedPiped c' sp' t _ _ hr _ _ _
  | blockedTty c' sp' t hr _ _ _ _ | blockedPiped c' sp' t hr _ _ _
  | doneTty c' sp' t _ hr _ _ _ _ | donePiped c' sp' t _ hr _ _ _ =>
    obtain ⟨hc, hs⟩ := hr.acquired.container_spec h2 h3
    subst hc; subst hs
    refine ⟨_, List.append_assoc _ _ _,
      by simp [Event.isAttach, countP_isAttach_pidFileCalls, countP_isAttach_logCalls],
      by simp [Event.isNewTask, countP_isNewTask_pidFileCalls, countP_isNewTask_logCalls], ?_⟩
    intro t' ha'
    obtain ⟨-, -, rfl⟩ := ha'.unique hr.acquired
    refine ⟨?_, fun _ => by simp⟩
    intro e he t₂ hte
    simp only [List.mem_append, List.mem_cons, List.not_mem_nil, or_false] at he
    casesm* _ ∨ _
    all_goals
      rename_i he
      first
      | exact task?_of_mem_pidFileCalls _ he _ hte
      | exact task?_of_mem_logCalls_eq _ he _ hte
      | (subst he; simp [Event.task?] at hte <;> exact hte.symm)


/-- C4: attach-or-create.  In a run that reaches acquisition (client made,
container `c` loaded, spec read) the attach is attempted exactly once and
before anything else is done with a task: the calls before it are exactly the
client, load and spec calls.  If the attach succeeds with task `t`, `NewTask`
is never called and every call on a task in the run is on `t`; if the attach
fails, `NewTask` is called exactly once and, when it succeeds with `t`, every
call on a task is on `t`.  In both cases `task.Wait` is called on `t` unless
the pid-file step fails. -/
theorem attach_or_create (env : Env) (c : Container) (sp : Spec)
    (h0 : env.arg0 ≠ "") (h1 : env.NewClient = none)
    (h2 : env.LoadContainer env.arg0 = Except.ok c) (h3 : env.Spec c = Except.ok sp) :
    (Action env).trace.countP Event.isAttach = 1 ∧
    Event.containerTask c ∈ (Action env).trace ∧
    (Action env).trace.takeWhile (fun e => !e.isAttach) =
      [Event.newClient, Event.loadContainer env.arg0, Event.spec c] ∧
    (∀ t, env.ContainerTask c = Except.ok t →
      (Action env).trace.countP Event.isNewTask = 0 ∧
      (∀ e ∈ (Action env).trace, ∀ t', e.task? = some t' → t' = t) ∧
      ((env.pidFileIsSet = true → env.WritePidFile env.pidFile (toInt env.intBits (env.Pid t)) = none) →
        Event.wait t ∈ (Action env).trace)) ∧
    (∀ err, env.ContainerTask c = Except.error err →
      (Action env).trace.countP Event.isNewTask = 1 ∧
      ∀ t, env.NewTask c "" sp.Process.Terminal env.nullIo env.fifoDir = Except.ok t →
        (∀ e ∈ (Action env).trace, ∀ t', e.task? = some t' → t' = t) ∧
        ((env.pidFileIsSet = true → env.WritePidFile env.pidFile (toInt env.intBits (env.Pid t)) = none) →
          Event.wait t ∈ (Action env).trace)) := by
  obtain ⟨rest, htr, hA, hN, hT⟩ := (Action_path env).after_acquire h0 h1 h2 h3
  rw [htr]
  have huse : ∀ t, Acquired env c sp t →
      (∀ e ∈ acquireCalls env c sp.Process.Terminal ++ rest, ∀ t', e.task? = some t' → t' = t) ∧
      ((env.pidFileIsSet = true → env.WritePidFile env.pidFile (toInt env.intBits (env.Pid t)) = none) →
        Event.wait t ∈ acquireCalls env c sp.Process.Terminal ++ rest) := by
    intro t ha
    refine ⟨?_, fun hw => List.mem_append_right _ ((hT t ha).2 hw)⟩
    intro e he t' hte
    rcases List.mem_append.1 he with he | he
    · rw [task?_of_mem_acquireCalls e he] at hte; cases hte
    · exact (hT t ha).1 e he t' hte
  refine ⟨by simp [countP_isAttach_acquireCalls, hA], by simp [acquireCalls],
    takeWhile_acquireCalls_append _ _ _ _, ?_, ?_⟩
  · intro t ht
    exact ⟨by simp [countP_isNewTask_acquireCalls, ht, hN], huse t ⟨h0, h1, h2, h3, Or.inl ht⟩⟩
  · intro err ht
    refine ⟨by simp [countP_isNewTask_acquireCalls, ht, hN], fun t hn => ?_⟩
    exact huse t ⟨h0, h1, h2, h3, Or.inr ⟨⟨err, ht⟩, hn⟩⟩


theorem count_setupCalls {env : Env} {c : Container} {tty : Bool} {t : Task} {e : Event}
    (h : e.isSetup = false) : (setupCalls env c tty t).count e = 0 :=
  List.count_eq_zero.2 (not_mem_setupCalls h)

theorem count_acquireCalls {env : Env} {c : Container} {tty : Bool} {e : Event}
    (h : e.isSetup = false) : (acquireCalls env c tty).count e = 0 :=
  List.count_eq_zero.2 (not_mem_acquireCalls h)

theorem count_logCalls {env : Env} {t : Task} {e : Event}
    (h : ∀ err, e ≠ Event.logError err "console resize") : (logCalls env t).count e = 0 := by
  refine List.count_eq_zero.2 (fun hm => ?_)
  obtain ⟨err, -, rfl⟩ := mem_logCalls.1 hm
  exact h err rfl

theorem dropWhile_logCalls_append {env : Env} {t : Task} (p : Event → Bool)
    (hp : ∀ err, p (Event.logError err "console resize") = true) (l : List Event) :
    (logCalls env t ++ l).dropWhile p = l.dropWhile p := by
  refine List.dropWhile_append_of_pos (fun a ha => ?_)
  obtain ⟨err, -, rfl⟩ := mem_logCalls.1 ha
  exact hp err

/-- C5: console restoration.  `con.Reset()` never runs twice.  In a run that
acquired the console (`console.Current()` was called) and does not stay
blocked on the completion channel, the action returns and `Reset` has then run
exactly once, as the last call but the deferred `cancel()`: whether `SetRaw`
or `Start` failed, the result could not be extracted, the task exited non-zero
or zero. -/
theorem console_reset_once (env : Env) :
    (Action env).trace.count Event.reset ≤ 1 ∧
    (Event.consoleCurrent ∈ (Action env).trace → Event.recv none ∉ (Action env).trace →
      (∃ err, (Action env).outcome = Outcome.returned err) ∧
      (Action env).trace.count Event.reset = 1 ∧
      (Action env).trace.dropWhile (fun e => e ≠ Event.reset) =
        [Event.reset, Event.cancel]) := by
  have hp := Action_path env
  generalize Action env = r at hp
  cases hp <;>
    simp [not_mem_setupCalls, not_mem_acquireCalls, mem_logCalls, Event.isSetup,
      count_setupCalls, count_acquireCalls, count_logCalls]
  all_goals
    rw [dropWhile_setupCalls_append _ (by intro e; cases e <;> simp [Event.isSetup])]
    simp [dropWhile_logCalls_append, List.dropWhile_cons]


theorem Acquired.tty? {env : Env} {c : Container} {sp : Spec} {t : Task}
    (ha : Acquired env c sp t) : env.tty? = some sp.Process.Terminal := by
  simp [Env.tty?, ha.load, ha.spec]

/-- C8 (amended): the deferred `StopCatch` never runs twice.  On a container
without a terminal, once `task.Start` has succeeded and unless the run stays
blocked on the completion channel, the action returns and `StopCatch` has
then run exactly once, as the last call but the deferred `cancel()`.  In a
run in which no `task.Start` call succeeded, `ForwardAllSignals` is never
called and `StopCatch` does not run. -/
theorem stopCatch_once_after_start (env : Env) :
    (Action env).trace.count Event.stopCatch ≤ 1 ∧
    (∀ t, env.tty? = some false → Event.start t ∈ (Action env).trace →
      env.Start t = none → Event.recv none ∉ (Action env).trace →
        (∃ err, (Action env).outcome = Outcome.returned err) ∧
        (Action env).trace.count Event.stopCatch = 1 ∧
        (Action env).trace.dropWhile (fun e => e ≠ Event.stopCatch) =
          [Event.stopCatch, Event.cancel]) ∧
    ((∀ t, Event.start t ∈ (Action env).trace → env.Start t ≠ none) →
      (Action env).trace.count Event.stopCatch = 0 ∧
      ∀ t, Event.forwardAllSignals t ∉ (Action env).trace) := by
  have hp := Action_path env
  generalize Action env = r at hp
  cases hp
  all_goals try have htty' := (‹Ready env _ _ _›).acquired.tty?
  all_goals
    simp [not_mem_setupCalls, not_mem_acquireCalls, mem_logCalls, Event.isSetup,
      count_setupCalls, count_acquireCalls, count_logCalls]
  all_goals
    try rw [dropWhile_setupCalls_append _ (by intro e; cases e <;> simp [Event.isSetup])]
  all_goals simp_all [List.dropWhile_cons]


theorem countP_isAfterStart_setupCalls (env : Env) (c : Container) (tty : Bool) (t : Task) :
    (setupCalls env c tty t).countP Event.isAfterStart = 0 := by
  refine List.countP_eq_zero.2 (fun a ha => ?_)
  have := isSetup_of_mem_setupCalls ha
  cases a <;> simp_all [Event.isSetup, Event.isAfterStart]

theorem countP_isAfterWait_setupCalls (env : Env) (c : Container) (tty : Bool) (t : Task) :
    (setupCalls env c tty t).countP Event.isAfterWait = 0 := by
  refine List.countP_eq_zero.2 (fun a ha => ?_)
  have := isSetup_of_mem_setupCalls ha
  cases a <;> simp_all [Event.isSetup, Event.isAfterWait, Event.isAfterStart]

/-- C6: the fatal steps fail fast with the original error.  A failed creation
(after a failed attach), a failed `task.Wait` and a failed `task.Start` each
make the action return exactly the error of that step, and after the failing
call only calls deferred earlier run (`con.Reset()` when the console was
acquired, then `cancel()`): no `Wait` or `Start` after a failed creation, no
receive on the completion channel, resize handling or signal forwarding after
a failed start.  A failed attach is followed by the `NewTask` call, and the
run is the same whatever error the attach returned. -/
theorem fatal_steps_fail_fast (env : Env) :
    (∀ c sp e e', env.arg0 ≠ "" → env.NewClient = none →
      env.LoadContainer env.arg0 = Except.ok c → env.Spec c = Except.ok sp →
      env.ContainerTask c = Except.error e →
      env.NewTask c "" sp.Process.Terminal env.nullIo env.fifoDir = Except.error e' →
        Action env =
          ⟨[Event.newClient, Event.loadContainer env.arg0, Event.spec c, Event.containerTask c,
              Event.newTask c "" sp.Process.Terminal env.nullIo env.fifoDir, Event.cancel],
            Outcome.returned (some (Error.collaborator e'))⟩) ∧
    (∀ t e, Event.wait t ∈ (Action env).trace → env.Wait t = Except.error e →
      (Action env).outcome = Outcome.returned (some (Error.collaborator e)) ∧
      (Action env).trace.dropWhile (fun ev => ev ≠ Event.wait t) =
        [Event.wait t, Event.cancel] ∧
      (Action env).trace.countP Event.isAfterWait = 0) ∧
    (∀ t e, Event.start t ∈ (Action env).trace → env.Start t = some e →
      (Action env).outcome = Outcome.returned (some (Error.collaborator e)) ∧
      (Action env).trace.dropWhile (fun ev => ev ≠ Event.start t) =
        Event.start t ::
          (if env.tty? = some true then [Event.reset, Event.cancel] else [Event.cancel]) ∧
      (Action env).trace.countP Event.isAfterStart = 0) ∧
    (∀ c sp e, env.arg0 ≠ "" → env.NewClient = none →
      env.LoadContainer env.arg0 = Except.ok c → env.Spec c = Except.ok sp →
      env.ContainerTask c = Except.error e →
        (∃ rest, (Action env).trace =
          [Event.newClient, Event.loadContainer env.arg0, Event.spec c, Event.containerTask c,
            Event.newTask c "" sp.Process.Terminal env.nullIo env.fifoDir] ++ rest) ∧
        ∀ e₂, Action { env with ContainerTask := fun _ => Except.error e₂ } = Action env) := by
  refine ⟨?_, ?_, ?_, ?_⟩
  · intro c sp e e' h0 h1 h2 h3 h4 h5
    simp [Action, h0, h1, h2, h3, h4, h5, St.call, St.ret, St.defer]
  · have hp := Action_path env
    generalize Action env = r at hp
    intro t e hmem hw
    cases hp <;>
      simp [not_mem_setupCalls, not_mem_acquireCalls, mem_logCalls, Event.isSetup] at hmem
    all_goals
      subst hmem
      try rw [dropWhile_setupCalls_append _ (by intro e; cases e <;> simp [Event.isSetup])]
      simp_all [List.dropWhile_cons, countP_isAfterWait_setupCalls, Event.isAfterWait,
        Event.isAfterStart]
  · have hp := Action_path env
    generalize Action env = r at hp
    intro t e hmem hw
    cases hp <;>
      simp [not_mem_setupCalls, not_mem_acquireCalls, mem_logCalls, Event.isSetup] at hmem
    all_goals
      subst hmem
      have htty' := (‹Ready env _ _ _›).acquired.tty?
      try rw [dropWhile_setupCalls_append _ (by intro e; cases e <;> simp [Event.isSetup])]
      simp_all [List.dropWhile_cons, countP_isAfterStart_setupCalls, Event.isAfterStart]
  · intro c sp e h0 h1 h2 h3 h4
    constructor
    · obtain ⟨rest, htr, -⟩ := (Action_path env).after_acquire h0 h1 h2 h3
      exact ⟨rest, by rw [htr]; simp [acquireCalls, h4]⟩
    · intro e₂
      simp only [Action, h0, h2, h3, h4]
      rfl


theorem awaitStatus_unlogged (bits : Nat) (s s' : St) (statusC : Option ExitStatus)
    (ht : s.trace.filter (fun e => !e.isLogError) = s'.trace.filter (fun e => !e.isLogError))
    (hd : s.deferred = s'.deferred) :
    (awaitStatus bits s statusC).unlogged = (awaitStatus bits s' statusC).unlogged := by
  cases statusC <;>
    simp [awaitStatus, Run.unlogged, St.call, St.ret, St.block, List.filter_append, ht, hd]

theorem startTask_unlogged_resize (env : Env) (f : Task → Option CollabError) (s : St)
    (tty : Bool) (t : Task) (statusC : Option ExitStatus) :
    (startTask { env with HandleConsoleResize := f } s tty t statusC).unlogged =
      (startTask env s tty t statusC).unlogged := by
  unfold startTask
  simp only
  cases env.Start t with
  | some e => rfl
  | none =>
    cases tty with
    | false => rfl
    | true =>
      simp only [if_true]
      cases f t <;> cases env.HandleConsoleResize t <;>
        exact awaitStatus_unlogged _ _ _ _
          (by simp [St.call, List.filter_append, List.filter_cons, Event.isLogError]) rfl

theorem waitTask_unlogged_resize (env : Env) (f : Task → Option CollabError) (s : St)
    (tty : Bool) (t : Task) :
    (waitTask { env with HandleConsoleResize := f } s tty t).unlogged =
      (waitTask env s tty t).unlogged := by
  unfold waitTask
  simp only
  cases env.Wait t with
  | error e => rfl
  | ok statusC =>
    cases tty with
    | false => exact startTask_unlogged_resize _ _ _ _ _ _
    | true =>
      simp only [if_true]
      cases env.SetRaw with
      | some e => rfl
      | none => exact startTask_unlogged_resize _ _ _ _ _ _

theorem withTask_unlogged_resize (env : Env) (f : Task → Option CollabError) (s : St)
    (tty : Bool) (t : Task) :
    (withTask { env with HandleConsoleResize := f } s tty t).unlogged =
      (withTask env s tty t).unlogged := by
  unfold withTask
  simp only
  cases env.pidFileIsSet with
  | false => exact waitTask_unlogged_resize _ _ _ _ _
  | true =>
    simp only [if_true]
    cases env.WritePidFile env.pidFile (toInt env.intBits (env.Pid t)) with
    | some e => rfl
    | none => exact waitTask_unlogged_resize _ _ _ _ _

/-- Apart from the log calls, the run does not depend on what
`HandleConsoleResize` answers. -/
theorem Action_unlogged_resize (env : Env) (f : Task → Option CollabError) :
    (Action { env with HandleConsoleResize := f }).unlogged = (Action env).unlogged := by
  unfold Action
  simp only
  by_cases h0 : env.arg0 = ""
  · simp only [h0, if_true]
  · simp only [h0, if_false]
    cases env.NewClient with
    | some e => rfl
    | none =>
      simp only
      cases env.LoadContainer env.arg0 with
      | error e => rfl
      | ok c =>
        simp only
        cases env.Spec c with
        | error e => rfl
        | ok sp =>
          simp only
          cases env.ContainerTask c with
          | ok t => exact withTask_unlogged_resize _ _ _ _ _
          | error e =>
            simp only
            cases env.NewTask c "" sp.Process.Terminal env.nullIo env.fifoDir with
            | error e' => rfl
            | ok t => exact withTask_unlogged_resize _ _ _ _ _

/-- C9: resize failures are isolated.  What the action returns does not
depend on the answers of `HandleConsoleResize`: replacing them by any others
leaves the outcome unchanged, and the calls made too, the log calls apart.
On a container with a terminal, once `task.Start` has succeeded the handler
is called and the action goes on to the receive on the completion channel;
an error of the handler is logged. -/
theorem resize_failure_isolated (env : Env) :
    (∀ f, (Action { env with HandleConsoleResize := f }).outcome = (Action env).outcome ∧
      (Action { env with HandleConsoleResize := f }).trace.filter (fun e => !e.isLogError) =
        (Action env).trace.filter (fun e => !e.isLogError)) ∧
    (∀ t, env.tty? = some true → Event.start t ∈ (Action env).trace → env.Start t = none →
      Event.handleConsoleResize t ∈ (Action env).trace ∧
      ∃ d, Event.recv d ∈ (Action env).trace ∧
        Event.handleConsoleResize t ∈
          (Action env).trace.takeWhile (fun ev => ev ≠ Event.recv d)) ∧
    (∀ t e, Event.handleConsoleResize t ∈ (Action env).trace →
      env.HandleConsoleResize t = some e →
        Event.logError e "console resize" ∈ (Action env).trace) := by
  refine ⟨fun f => ?_, ?_, ?_⟩
  · have h := Action_unlogged_resize env f
    exact ⟨by simpa [Run.unlogged] using congrArg Run.outcome h,
      by simpa [Run.unlogged] using congrArg Run.trace h⟩
  · have hp := Action_path env
    generalize Action env = r at hp
    intro t htty hmem hstart
    cases hp <;>
      simp [not_mem_setupCalls, not_mem_acquireCalls, mem_logCalls, Event.isSetup] at hmem
    all_goals
      subst hmem
      have htty' := (‹Ready env _ _ _›).acquired.tty?
      simp_all
    all_goals
      refine ⟨_, Or.inr (Or.inr rfl), ?_⟩
      rw [takeWhile_setupCalls_append _ (by intro e; cases e <;> simp [Event.isSetup])]
      simp [List.takeWhile_cons]
  · have hp := Action_path env
    generalize Action env = r at hp
    intro t e hmem hfail
    cases hp <;>
      simp [not_mem_setupCalls, not_mem_acquireCalls, mem_logCalls, Event.isSetup] at hmem
    all_goals
      subst hmem
      simp [mem_logCalls, hfail]


theorem not_op_of_isSetup {e : Event} (h : e.isSetup = true) :
    e.isConsoleOp = false ∧ e.isSignalOp = false := by
  cases e <;> simp_all [Event.isSetup, Event.isConsoleOp, Event.isSignalOp]

theorem not_op_of_mem_logCalls {env : Env} {t : Task} {e : Event} (h : e ∈ logCalls env t) :
    e.isConsoleOp = false ∧ e.isSignalOp = false := by
  obtain ⟨err, -, rfl⟩ := mem_logCalls.1 h
  exact ⟨rfl, rfl⟩

/-- Console calls occur only with a terminal, signal-relay calls only
without one. -/
theorem Path.ops {env : Env} {r : Run} (hp : Path env r) :
    ∀ ev ∈ r.trace,
      (ev.isConsoleOp = true → env.tty? = some true) ∧
      (ev.isSignalOp = true → env.tty? = some false) := by
  intro ev hev
  cases hp
  all_goals try have htty' := (‹Ready env _ _ _›).acquired.tty?
  all_goals
    simp only [List.mem_append, List.mem_cons, List.not_mem_nil, or_false] at hev
  all_goals try casesm* _ ∨ _
  all_goals
    first
    | exact absurd hev (List.not_mem_nil _)
    | (rename_i he
       first
       | simp [not_op_of_isSetup (isSetup_of_mem_setupCalls he)]
       | simp [not_op_of_isSetup (isSetup_of_mem_acquireCalls he)]
       | simp [not_op_of_mem_logCalls he]
       | (subst he; simp_all [Event.isConsoleOp, Event.isSignalOp]))
    | (subst hev; simp [Event.isConsoleOp, Event.isSignalOp])

/-- C10: the console path and the signal path exclude each other.  A console
call (`Current`, `SetRaw`, `Reset`, `HandleConsoleResize`) occurs only when
the spec has `Terminal = true`, a signal-relay call (`ForwardAllSignals`,
`StopCatch`) only when it has `Terminal = false`, and no run contains both.
`ForwardAllSignals` is called only after `task.Start` on the same task
returned without error. -/
theorem console_signal_exclusive (env : Env) :
    (∀ ev ∈ (Action env).trace, ev.isConsoleOp = true → env.tty? = some true) ∧
    (∀ ev ∈ (Action env).trace, ev.isSignalOp = true → env.tty? = some false) ∧
    (¬ ∃ e₁ ∈ (Action env).trace, ∃ e₂ ∈ (Action env).trace,
        e₁.isConsoleOp = true ∧ e₂.isSignalOp = true) ∧
    (∀ t, Event.forwardAllSignals t ∈ (Action env).trace →
      env.Start t = none ∧
      Event.start t ∈
        (Action env).trace.takeWhile (fun ev => ev ≠ Event.forwardAllSignals t)) := by
  have hops := (Action_path env).ops
  refine ⟨fun ev h => (hops ev h).1, fun ev h => (hops ev h).2, ?_, ?_⟩
  · rintro ⟨e₁, h₁, e₂, h₂, hc, hs⟩
    have h := (hops e₁ h₁).1 hc
    rw [(hops e₂ h₂).2 hs] at h
    cases h
  · have hp := Action_path env
    generalize Action env = r at hp
    intro t hmem
    cases hp <;>
      simp [not_mem_setupCalls, not_mem_acquireCalls, mem_logCalls, Event.isSetup] at hmem
    all_goals
      subst hmem
      refine ⟨by assumption, ?_⟩
      rw [takeWhile_setupCalls_append _ (by intro e; cases e <;> simp [Event.isSetup])]
      simp [List.takeWhile_cons]

/-! ## The theorems at sample runs -/

/-- C1 as stated fails where Go's `int` has 32 bits: the task exits with the
`uint32` code `2 ^ 31`, `Result()` gives no error, and the exit error carries
`int(code) = -2 ^ 31`, not the code. -/
theorem exit_code_wraps_on_int32 :
    Event.recv (some { code := 2147483648, err := none }) ∈ (Action envInt32).trace ∧
    (2147483648 : Nat) < 2 ^ 32 ∧
    (Action envInt32).outcome =
      Outcome.returned (some (Error.exitError "" (-2147483648))) ∧
    (Action envInt32).outcome ≠
      Outcome.returned (some (Error.exitError "" ((2147483648 : Nat) : Int))) := by
  decide

theorem exit_code_mapping_witness :
    (Event.recv (some { code := 137, err := none }) ∈ (Action envPiped).trace ∧
      (137 : Nat) < 2 ^ (envPiped.intBits - 1) ∧
      (Action envPiped).outcome =
        Outcome.returned (some (Error.exitError "" ((137 : Nat) : Int)))) ∧
    (Event.recv (some { code := 0, err := none }) ∈ (Action envExitZero).trace ∧
      (Action envExitZero).outcome = Outcome.returned none) :=
  ⟨⟨by decide, by decide,
      (exit_code_mapping envPiped { code := 137, err := none } (by decide) rfl
        (by decide)).2.1 (by decide)⟩,
    ⟨by decide,
      (exit_code_mapping envExitZero { code := 0, err := none } (by decide) rfl
        (by decide)).2.1 (by decide)⟩⟩

theorem wait_before_start_witness :
    Event.start 7 ∈ (Action envPiped).trace ∧
    (∃ statusC, envPiped.Wait 7 = Except.ok statusC) ∧
    Event.wait 7 ∈ (Action envPiped).trace.takeWhile (fun e => e ≠ Event.start 7) :=
  ⟨by decide, wait_before_start envPiped 7 (by decide)⟩

theorem empty_id_precondition_witness :
    Action envNoId =
      ⟨[], Outcome.returned (some (Error.errorsNew "container id must be provided"))⟩ ∧
    (Action envPiped).outcome ≠
      Outcome.returned (some (Error.errorsNew "container id must be provided")) :=
  ⟨(empty_id_precondition envNoId).1 rfl,
    (empty_id_precondition envPiped).2 (by decide) "container id must be provided"⟩

theorem attach_or_create_witness :
    envAttach.ContainerTask 1 = Except.ok 3 ∧
    (Action envAttach).trace.countP Event.isAttach = 1 ∧
    (Action envAttach).trace.countP Event.isNewTask = 0 ∧
    Event.wait 3 ∈ (Action envAttach).trace :=
  have h := attach_or_create envAttach 1 { Process := { Terminal := false } }
    (by decide) rfl rfl rfl
  ⟨rfl, h.1, (h.2.2.2.1 3 rfl).1, (h.2.2.2.1 3 rfl).2.2 (fun h => by cases h)⟩

theorem console_reset_once_witness :
    (Event.consoleCurrent ∈ (Action envTtyStartFails).trace ∧
      (Action envTtyStartFails).trace.count Event.reset = 1) ∧
    (Event.consoleCurrent ∈ (Action envSetRawFails).trace ∧
      (Action envSetRawFails).trace.count Event.reset = 1) ∧
    (Event.consoleCurrent ∈ (Action envTty).trace ∧
      (Action envTty).trace.count Event.reset = 1) :=
  ⟨⟨by decide, ((console_reset_once envTtyStartFails).2 (by decide) (by decide)).2.1⟩,
    ⟨by decide, ((console_reset_once envSetRawFails).2 (by decide) (by decide)).2.1⟩,
    ⟨by decide, ((console_reset_once envTty).2 (by decide) (by decide)).2.1⟩⟩

theorem fatal_steps_fail_fast_witness :
    (Event.start 7 ∈ (Action envStartFails).trace ∧
      (Action envStartFails).outcome =
        Outcome.returned (some (Error.collaborator { msg := "OCI runtime start failed" })) ∧
      (Action envStartFails).trace.countP Event.isAfterStart = 0) ∧
    (Event.wait 7 ∈ (Action envWaitFails).trace ∧
      (Action envWaitFails).outcome =
        Outcome.returned (some (Error.collaborator { msg := "ttrpc: closed" })) ∧
      (Action envWaitFails).trace.countP Event.isAfterWait = 0) ∧
    Action envCreateFails =
      ⟨[Event.newClient, Event.loadContainer "c1", Event.spec 1, Event.containerTask 1,
          Event.newTask 1 "" false false "", Event.cancel],
        Outcome.returned (some (Error.collaborator { msg := "rootfs not found" }))⟩ :=
  have hs := (fatal_steps_fail_fast envStartFails).2.2.1 7
    { msg := "OCI runtime start failed" } (by decide) rfl
  have hw := (fatal_steps_fail_fast envWaitFails).2.1 7 { msg := "ttrpc: closed" }
    (by decide) rfl
  ⟨⟨by decide, hs.1, hs.2.2⟩, ⟨by decide, hw.1, hw.2.2⟩,
    (fatal_steps_fail_fast envCreateFails).1 1 { Process := { Terminal := false } }
      { msg := "no running task found" } { msg := "rootfs not found" }
      (by decide) rfl rfl rfl rfl rfl⟩

/-- C8 as stated fails: on a container without a terminal whose `task.Start`
fails, the action returns and `StopCatch` has not run at all. -/
theorem stopCatch_absent_after_failed_start :
    envStartFails.tty? = some false ∧
    (Action envStartFails).outcome =
      Outcome.returned (some (Error.collaborator { msg := "OCI runtime start failed" })) ∧
    (Action envStartFails).trace.count Event.stopCatch = 0 := by
  decide

theorem stopCatch_once_after_start_witness :
    envPiped.tty? = some false ∧ Event.start 7 ∈ (Action envPiped).trace ∧
    (Action envPiped).trace.count Event.stopCatch = 1 :=
  ⟨by decide, by decide,
    ((stopCatch_once_after_start envPiped).2.1 7 (by decide) (by decide) rfl (by decide)).2.1⟩

theorem resize_failure_isolated_witness :
    (Action envResizeFails).outcome = (Action envTty).outcome ∧
    Event.logError { msg := "resize failed" } "console resize" ∈
      (Action envResizeFails).trace :=
  ⟨((resize_failure_isolated envTty).1 (fun _ => some { msg := "resize failed" })).1,
    (resize_failure_isolated envResizeFails).2.2 7 { msg := "resize failed" } (by decide) rfl⟩

theorem console_signal_exclusive_witness :
    Event.forwardAllSignals 7 ∈ (Action envPiped).trace ∧
    envPiped.Start 7 = none ∧
    Event.start 7 ∈
      (Action envPiped).trace.takeWhile (fun ev => ev ≠ Event.forwardAllSignals 7) :=
  ⟨by decide, (console_signal_exclusive envPiped).2.2.2 7 (by decide)⟩

end Start
